import Mathlib

/-!
Verification of the GUIPySOFI data pipeline (guipysofi), a shallow embedding of
`guipysofi/core/data_manager.py`, `guipysofi/core/optimization.py` and
`guipysofi/ui/visualizer.py`.

Numeric arrays are modelled with exact rational arithmetic; external effects
(filesystem, the third-party PySOFI library, the TIFF decoder) are modelled as
environment records that record the outcome of each external call, so that the
pipeline functions below mirror the Python control flow line by line.
-/

namespace GuiPySofi

/-- Model of a NumPy ndarray as far as `load_file` observes it: its shape and
the byte width of one element (`itemsize`).  Uniform frame shape is intrinsic
to this representation: every frame of a stack of shape `n :: rest` has shape
`rest`. -/
structure PyArray where
  shape : List Nat
  itemsize : Nat
deriving DecidableEq, Repr

/-- NumPy `ndarray.ndim`. -/
def PyArray.ndim (a : PyArray) : Nat := a.shape.length

/-- NumPy `ndarray.nbytes` = product of the shape times the element size. -/
def PyArray.nbytes (a : PyArray) : Nat := a.itemsize * a.shape.prod

/-- State of a `DataManager` object (`data_manager.py`, `__init__`, lines
271-286).  `file_path` models a Python attribute: `none` means the attribute
is absent (reading it raises `AttributeError`), `some none` means it is set to
`None`, `some (some p)` means it holds the path `p`.  `__init__` never sets
it. -/
structure DataManager (α : Type) where
  data : Option PyArray
  sofi_result : Option α
  total_frames : Nat
  temp_files : List String
  file_path : Option (Option String)

/-- The state produced by `DataManager.__init__`: `data = None`,
`sofi_result = None`, `total_frames = 0`, `temp_files = []`, and the
`file_path` attribute is never assigned. -/
def DataManager.init {α : Type} : DataManager α :=
  { data := none, sofi_result := none, total_frames := 0, temp_files := [],
    file_path := none }

/-- Outcomes of the external calls `load_file` makes: `os.path.exists`,
`os.path.getsize` (in bytes), and `tifffile.imread` (which either raises,
modelled by `.error`, or returns an array). -/
structure LoadEnv where
  pathExists : Bool
  sizeBytes : Nat
  decode : Except String PyArray

/-- Python `os.path.basename` for POSIX paths. -/
def basename (p : String) : String := (p.splitOn "/").getLastD p

/-- The over-500-MB refusal message of `load_file` (line 323).  Python renders
the size with one decimal digit; `toString` abstracts that numeral
formatting. -/
def file_too_big_msg (mb : ℚ) : String :=
  "The file is " ++ toString mb ++ " MB, which may cause memory issues."

/-- The over-1000-MB-decoded refusal message of `load_file` (line 340), with
the same numeral-formatting abstraction. -/
def mem_too_big_msg (mb : ℚ) : String :=
  "This data will use " ++ toString mb ++ " MB of memory, which may crash the application."

/-- The 2-D-to-3-D promotion of `load_file` (lines 331-332): a single 2-D
image becomes a one-frame stack via `tiff_data[np.newaxis, ...]`. -/
def promote2d (a : PyArray) : PyArray :=
  if a.ndim = 2 then { a with shape := 1 :: a.shape } else a

/-- What a call to `DataManager.load_file` returns and does: the returned
`(success, message)` pair, the updated object state, and whether
`tifffile.imread` was reached (`decodeAttempted`). -/
structure LoadResult (α : Type) where
  success : Bool
  message : String
  dm : DataManager α
  decodeAttempted : Bool

/-- Shallow embedding of `DataManager.load_file` (`data_manager.py` lines
298-364).  Control flow, mirrored branch by branch:
any previously loaded data is dropped first (line 310); a missing path raises
`FileNotFoundError` which the outer handler turns into a failure pair (lines
317-318, 359-364); a file over 500 MB on disk is refused before `imread` is
ever called (lines 321-323); a decode error is re-wrapped as
"Failed to read TIFF file" and then by the outer handler (lines 326-345);
a 2-D image is promoted to a single-frame stack (lines 331-332); fewer than 3
dimensions raises (lines 334-335); a decoded array over 1000 MB is refused
(lines 338-340); otherwise the data is stored as float32 (`itemsize = 4`) and
`total_frames` is set to the leading dimension (lines 343-348). -/
def load_file {α : Type} (env : LoadEnv) (dm : DataManager α) (path : String) :
    LoadResult α :=
  let dm0 : DataManager α := { dm with data := none }
  if env.pathExists = false then
    { success := false,
      message := "Failed to load TIFF stack: Could not find the file: " ++ path,
      dm := { dm0 with data := none }, decodeAttempted := false }
  else if ((env.sizeBytes : ℚ) / (1024 * 1024)) > 500 then
    { success := false,
      message := file_too_big_msg ((env.sizeBytes : ℚ) / (1024 * 1024)),
      dm := dm0, decodeAttempted := false }
  else
    match env.decode with
    | .error e =>
      { success := false,
        message := "Failed to load TIFF stack: Failed to read TIFF file: " ++ e,
        dm := { dm0 with data := none }, decodeAttempted := true }
    | .ok arr0 =>
      let arr : PyArray := promote2d arr0
      if arr.ndim < 3 then
        { success := false,
          message := "Failed to load TIFF stack: Failed to read TIFF file: Image stack must have at least 3 dimensions (frames, height, width)",
          dm := { dm0 with data := none }, decodeAttempted := true }
      else if ((arr.nbytes : ℚ) / (1024 * 1024)) > 1000 then
        { success := false,
          message := mem_too_big_msg ((arr.nbytes : ℚ) / (1024 * 1024)),
          dm := dm0, decodeAttempted := true }
      else
        let arrF : PyArray := { arr with itemsize := 4 }
        { success := true,
          message := "Successfully loaded " ++ basename path,
          dm := { dm0 with data := some arrF, total_frames := arrF.shape.headI },
          decodeAttempted := true }

/-- Outcome of the first call `sofi.cumulants_images(highest_order=order,
weighting=...)` in `run_sofi` (line 511): it may succeed, raise `TypeError`
(in which case the code retries without the weighting argument, line 514), or
raise some other exception. -/
inductive CumulantsCall where
  | ok
  | typeError
  | raises (e : String)

/-- Outcomes of the external PySOFI calls `run_sofi` makes, in program order:
whether `import pysofi` succeeds; the try-block that loads data into the
PySOFI object (lines 421-434); whether `sofi.frames` is present afterwards
(line 439); the `bleach_correction`, `drift_correction`, `calc_moments_set`
and `cumulants_images` calls; the resulting dictionary `sofi.cumulants_set`
(an association list of order/image pairs); the `reconstruct_fourier` call;
and `sofi.fourier_result` (`none` models an absent attribute, mirroring the
`hasattr` check on line 523). -/
structure RunEnv (α : Type) where
  pysofiImport : Bool
  loadOutcome : Except String Unit
  framesPresent : Bool
  bleachOutcome : Except String Unit
  driftOutcome : Except String Unit
  momentsOutcome : Except String Unit
  cumulantsFirst : CumulantsCall
  cumulantsRetry : Except String Unit
  cumulantsSet : List (Nat × α)
  deconvOutcome : Except String Unit
  fourierResult : Option (List (Nat × α))

/-- The parameters `run_sofi` reads out of its dictionary argument with
`parameters.get` (lines 399-403), already extracted with their defaults. -/
structure Params where
  order : Nat
  weighting : String
  deconv : Bool
  bleach : Bool
  drift : Bool

/-- The `(success, message, results)` triple `run_sofi` returns: `success`
carries the message and the result image, `failure` is `(False, msg, None)`. -/
inductive PipeResult (α : Type) where
  | success (message : String) (result : α)
  | failure (message : String)

/-- Effective outcome of the bleach-correction step: `sofi.bleach_correction`
is only called when the flag is set (lines 443-461). -/
def effBleach {α : Type} (env : RunEnv α) (p : Params) : Except String Unit :=
  if p.bleach then env.bleachOutcome else .ok ()

/-- Effective outcome of the drift-correction step (lines 464-482). -/
def effDrift {α : Type} (env : RunEnv α) (p : Params) : Except String Unit :=
  if p.drift then env.driftOutcome else .ok ()

/-- Effective outcome of the cumulant-computation step: a `TypeError` from
the weighted call is retried without the weighting argument (lines 510-514);
any other exception propagates. -/
def effCumulants {α : Type} (env : RunEnv α) : Except String Unit :=
  match env.cumulantsFirst with
  | .ok => .ok ()
  | .typeError => env.cumulantsRetry
  | .raises e => .error e

/-- The success message of `run_sofi` (line 557), parametrized by the order
actually used. -/
def success_msg (o : Nat) : String :=
  "Successfully completed " ++ toString o ++ "-order SOFI analysis"

/-- Python `max(available)` over the keys of `cumulants_set` (line 537). -/
def maxKey {α : Type} (l : List (Nat × α)) : Nat :=
  (l.map Prod.fst).foldr max 0

/-- The message produced when `sofi.cumulants_set[order]` raises `KeyError`
and the outer handler formats it (line 562): Python `str(KeyError(order))`
is the repr of the key. -/
def key_error_msg (o : Nat) : String :=
  "SOFI calculation failed: " ++ toString o

/-- Extraction of `self.sofi_result` from `sofi.cumulants_set[order]`
(lines 528, 531 and 542): a present key yields the image, a missing key
raises `KeyError`, which the outer handler converts to a failure pair. -/
def fromCumulants {α : Type} (env : RunEnv α) (o : Nat) :
    Except String (PipeResult α) :=
  match List.lookup o env.cumulantsSet with
  | some img => .ok (.success (success_msg o) img)
  | none => .ok (.failure (key_error_msg o))

/-- Shallow embedding of `DataManager.run_sofi` (`data_manager.py` lines
381-562).  The return value is `Except`: `.ok r` is an actual return of the
triple `r`, `.error e` is an exception `e` escaping to the caller.  Control
flow, mirrored branch by branch: a failed `import pysofi` returns a failure
pair (lines 392-396); then `self.file_path` is read OUTSIDE the try block
(line 406) — if the attribute was never assigned this raises
`AttributeError`, which nothing in `run_sofi` catches; if it is `None` a
failure pair is returned; inside the try block the steps run in sequence,
each failure producing the failure pair the code builds for it, and any
exception reaching the outer handler (line 559) is wrapped as
"SOFI calculation failed".  With `deconv` requested and `order > 2` (line
517), a missing `fourier_result` entry or a deconvolution exception falls
back to `cumulants_set[order]`; otherwise a missing order falls back to the
maximum available key (lines 532-542), raising `ValueError` when the set is
empty (line 539). -/
def run_sofi {α : Type} (env : RunEnv α) (dm : DataManager α) (p : Params) :
    Except String (PipeResult α) :=
  if env.pysofiImport = false then
    .ok (.failure "PySOFI package not found. Please install it with: pip install pysofi")
  else
    match dm.file_path with
    | none => .error "AttributeError: DataManager object has no attribute file_path"
    | some none => .ok (.failure "No file loaded. Please load a file first.")
    | some (some _) =>
      match env.loadOutcome with
      | .error e => .ok (.failure ("Failed to load data into PySOFI: " ++ e))
      | .ok _ =>
        if env.framesPresent = false then
          .ok (.failure "Failed to load frames data into PySOFI")
        else
          match effBleach env p with
          | .error e => .ok (.failure ("Bleaching correction failed: " ++ e))
          | .ok _ =>
            match effDrift env p with
            | .error e => .ok (.failure ("Drift correction failed: " ++ e))
            | .ok _ =>
              match env.momentsOutcome with
              | .error e => .ok (.failure ("SOFI calculation failed: " ++ e))
              | .ok _ =>
                match effCumulants env with
                | .error e => .ok (.failure ("SOFI calculation failed: " ++ e))
                | .ok _ =>
                  if p.deconv && decide (2 < p.order) then
                    match env.deconvOutcome with
                    | .ok _ =>
                      match env.fourierResult.bind (List.lookup p.order) with
                      | some img => .ok (.success (success_msg p.order) img)
                      | none => fromCumulants env p.order
                    | .error _ => fromCumulants env p.order
                  else
                    match List.lookup p.order env.cumulantsSet with
                    | some img => .ok (.success (success_msg p.order) img)
                    | none =>
                      if env.cumulantsSet.isEmpty then
                        .ok (.failure "SOFI calculation failed: No results available")
                      else
                        fromCumulants env (maxKey env.cumulantsSet)

/-- One iteration of the loop in `_cleanup_temp_files` (`data_manager.py`
lines 614-619): if the path exists it is removed with `os.remove`, whose
possible failure (`removeOk p = false`) is swallowed by the bare
`except Exception: pass`.  The filesystem is a list of existing paths. -/
def osRemoveStep (removeOk : String → Bool) (fs : List String) (p : String) :
    List String :=
  if p ∈ fs then (if removeOk p then fs.filter (fun q => q ≠ p) else fs) else fs

/-- Shallow embedding of `DataManager._cleanup_temp_files` (lines 612-620):
iterate `osRemoveStep` over the tracked paths, then set `self.temp_files`
to the empty list.  Returns the final filesystem and the final tracking
list. -/
def cleanup_temp_files (removeOk : String → Bool) (fs : List String)
    (temp : List String) : List String × List String :=
  (temp.foldl (osRemoveStep removeOk) fs, [])

/-- Mean intensity of one frame, `np.mean` of its pixel values, with a frame
modelled as the (row-major flattened) list of its pixels in exact rational
arithmetic. -/
def frameMean (f : List ℚ) : ℚ := f.sum / (f.length : ℚ)

/-- Shallow embedding of the `bleach_correction` method monkey-patched onto
`PysofiData` (`data_manager.py` lines 21-58): per-frame means are computed,
`correction_factors = mean_per_frame[0] / mean_per_frame`, and frame `i` is
multiplied by its factor. -/
def bleach_correction (stack : List (List ℚ)) : List (List ℚ) :=
  match stack with
  | [] => []
  | f0 :: _ =>
    stack.map fun fi => fi.map fun x => x * (frameMean f0 / frameMean fi)

/-- State of a `DataVisualizer` (`visualizer.py`, `__init__`): the current
frame index, the number of frames, the playback flag, the pending
`after`-callback id of a slider motion, and whether the slider widget and the
data are present (the `hasattr`/truthiness guards). -/
structure VizState where
  current_frame : Nat
  total_frames : Nat
  is_playing : Bool
  slider_update_id : Option Nat
  has_slider : Bool
  has_data : Bool

/-- Shallow embedding of `DataVisualizer.display_frame` (`visualizer.py`
lines 86-129): without data or frames it returns untouched; an out-of-range
index returns untouched; otherwise the only state field written is
`current_frame`. -/
def display_frame (s : VizState) (idx : Nat) : VizState :=
  if s.has_data = false ∨ s.total_frames = 0 then s
  else if idx < s.total_frames then { s with current_frame := idx } else s

/-- Shallow embedding of `DataVisualizer.on_slider_release` (`visualizer.py`
lines 286-300), the manual-seek handler, with `sliderVal` the integer slider
position: without a slider it returns untouched; a pending slider-motion
callback is cancelled; a valid index is written to `current_frame` and
displayed. -/
def on_slider_release (s : VizState) (sliderVal : Nat) : VizState :=
  if s.has_slider = false then s
  else if sliderVal < s.total_frames then
    display_frame { s with slider_update_id := none, current_frame := sliderVal }
      sliderVal
  else { s with slider_update_id := none }

/-- Shallow embedding of `DataVisualizer._update_frame_from_slider`
(`visualizer.py` lines 302-311), the deferred seek fired while the slider is
dragged: clears the pending callback id, then, with a slider present and a
valid index, writes `current_frame` and displays. -/
def update_frame_from_slider (s : VizState) (sliderVal : Nat) : VizState :=
  if s.has_slider = false then { s with slider_update_id := none }
  else if sliderVal < s.total_frames then
    display_frame { s with slider_update_id := none, current_frame := sliderVal }
      sliderVal
  else { s with slider_update_id := none }

/-- Per-pixel temporal mean of a stack, as computed by the Numba
`fast_cross_correlation` (`optimization.py` lines 85-91): the sum of the pixel
over all frames divided by the frame count. -/
def ccMean (F H W : Nat) (data : Fin F → Fin H → Fin W → ℚ)
    (i : Fin H) (j : Fin W) : ℚ :=
  (∑ f : Fin F, data f i j) / (F : ℚ)

/-- Shallow embedding of the Numba-loop `fast_cross_correlation`
(`optimization.py` lines 68-103) in exact arithmetic:
`result[i,j,k,l] = (Σ_f (data[f,i,j]-mean[i,j])·(data[f,k,l]-mean[k,l]))/frames`. -/
def fast_cross_correlation_numba (F H W : Nat)
    (data : Fin F → Fin H → Fin W → ℚ)
    (i : Fin H) (j : Fin W) (k : Fin H) (l : Fin W) : ℚ :=
  (∑ f : Fin F,
      (data f i j - ccMean F H W data i j) * (data f k l - ccMean F H W data k l)) /
    (F : ℚ)

/-- Model of `data.reshape(frames, -1)` in the fallback implementation
(`optimization.py` line 147): row-major flattening, with flat index `p`
addressing pixel `(p / W, p % W)`; indices outside the array yield a junk
value (they are never reached from valid flat indices). -/
def dataReshaped (F H W : Nat) (data : Fin F → Fin H → Fin W → ℚ)
    (f : Fin F) (p : Nat) : ℚ :=
  if h : p / W < H ∧ p % W < W then data f ⟨p / W, h.1⟩ ⟨p % W, h.2⟩ else 0

/-- Model of `np.mean(data_reshaped, axis=0)` in the fallback implementation
(line 150). -/
def meansFlat (F H W : Nat) (data : Fin F → Fin H → Fin W → ℚ) (p : Nat) : ℚ :=
  (∑ f : Fin F, dataReshaped F H W data f p) / (F : ℚ)

/-- Entry `(p, q)` of `np.dot(data_centered.T, data_centered) / frames`
(lines 153-156). -/
def correlationMatrix (F H W : Nat) (data : Fin F → Fin H → Fin W → ℚ)
    (p q : Nat) : ℚ :=
  (∑ f : Fin F,
      (dataReshaped F H W data f p - meansFlat F H W data p) *
        (dataReshaped F H W data f q - meansFlat F H W data q)) /
    (F : ℚ)

/-- Shallow embedding of the vectorized NumPy fallback
`fast_cross_correlation` (`optimization.py` lines 133-159) in exact
arithmetic: the correlation matrix of the flattened, mean-centered data,
reshaped back to four indices (`correlation.reshape(height, width, height,
width)` reads entry `(i·W+j, k·W+l)`). -/
def fast_cross_correlation_fallback (F H W : Nat)
    (data : Fin F → Fin H → Fin W → ℚ)
    (i : Fin H) (j : Fin W) (k : Fin H) (l : Fin W) : ℚ :=
  correlationMatrix F H W data (i.val * W + j.val) (k.val * W + l.val)

/-! Concrete inputs used by the closed counterexample and witness theorems
below. -/

/-- A 600 MB file on disk whose decode is never reached. -/
def envDisk600 : LoadEnv :=
  { pathExists := true, sizeBytes := 600 * 1024 * 1024,
    decode := .error "never reached" }

/-- A float64 stack of 2000 × 512 × 512 pixels: 4000 MB once decoded. -/
def arrMem4000 : PyArray := { shape := [2000, 512, 512], itemsize := 8 }

/-- A small file on disk that decodes to `arrMem4000`. -/
def envMem4000 : LoadEnv :=
  { pathExists := true, sizeBytes := 1024, decode := .ok arrMem4000 }

/-- A small file decoding to a 4-D array of shape 2 × 3 × 4 × 5. -/
def env4D : LoadEnv :=
  { pathExists := true, sizeBytes := 1000,
    decode := .ok { shape := [2, 3, 4, 5], itemsize := 2 } }

/-- A well-formed 3-D stack of shape 10 × 32 × 32. -/
def arr3D : PyArray := { shape := [10, 32, 32], itemsize := 2 }

/-- A small file decoding to `arr3D`. -/
def env3D : LoadEnv :=
  { pathExists := true, sizeBytes := 1000, decode := .ok arr3D }

/-- A `DataManager` whose `file_path` attribute was set (as an external caller
could do by assignment; nothing inside the repository does). -/
def dmReady : DataManager Nat :=
  { DataManager.init with file_path := some (some "movie.tif") }

/-- Run environment: every external call succeeds, the cumulant set holds
only order 2, and the internal `reconstruct_fourier` patch left
`fourier_result` empty (it skips orders missing from `cumulants_set`). -/
def envOrder2Only : RunEnv Nat :=
  { pysofiImport := true, loadOutcome := .ok (), framesPresent := true,
    bleachOutcome := .ok (), driftOutcome := .ok (), momentsOutcome := .ok (),
    cumulantsFirst := .ok, cumulantsRetry := .ok (),
    cumulantsSet := [(2, 7)], deconvOutcome := .ok (),
    fourierResult := some [] }

/-- Run environment: every step succeeds except `reconstruct_fourier`, which
raises; the cumulant set holds order 3. -/
def envDeconvFail : RunEnv Nat :=
  { pysofiImport := true, loadOutcome := .ok (), framesPresent := true,
    bleachOutcome := .ok (), driftOutcome := .ok (), momentsOutcome := .ok (),
    cumulantsFirst := .ok, cumulantsRetry := .ok (),
    cumulantsSet := [(3, 9)], deconvOutcome := .error "fft failed",
    fourierResult := some [] }

/-- Run environment whose PySOFI data-loading step raises. -/
def envLoadFail : RunEnv Nat :=
  { pysofiImport := true, loadOutcome := .error "corrupt tiff",
    framesPresent := true, bleachOutcome := .ok (), driftOutcome := .ok (),
    momentsOutcome := .ok (), cumulantsFirst := .ok, cumulantsRetry := .ok (),
    cumulantsSet := [(2, 7)], deconvOutcome := .ok (),
    fourierResult := some [] }

/-- Parameters requesting order 3 with deconvolution. -/
def pDeconv3 : Params :=
  { order := 3, weighting := "none", deconv := true, bleach := false,
    drift := false }

/-- Parameters requesting order 5 without deconvolution. -/
def pNoDeconv5 : Params :=
  { order := 5, weighting := "none", deconv := false, bleach := false,
    drift := false }

/-- A two-frame stack with frame means 1 and 2. -/
def stackW : List (List ℚ) := [[1], [2]]

/-! Theorems settling the claims. -/

/-- An element of the filesystem after one `osRemoveStep` was already there
before it: removal never adds files. -/
lemma mem_of_mem_osRemoveStep {removeOk : String → Bool} {fs : List String}
    {p x : String} (h : x ∈ osRemoveStep removeOk fs p) : x ∈ fs := by
  unfold osRemoveStep at h
  by_cases h1 : p ∈ fs
  · rw [if_pos h1] at h
    by_cases h2 : removeOk p = true
    · rw [if_pos h2] at h
      exact List.mem_of_mem_filter h
    · rwa [if_neg h2] at h
  · rwa [if_neg h1] at h

/-- A path absent from the filesystem stays absent through the cleanup
loop. -/
lemma not_mem_foldl_osRemoveStep (removeOk : String → Bool)
    (temp : List String) :
    ∀ fs x, x ∉ fs → x ∉ temp.foldl (osRemoveStep removeOk) fs := by
  induction temp with
  | nil => intro fs x hx; simpa using hx
  | cons a t ih =>
    intro fs x hx
    rw [List.foldl_cons]
    exact ih _ x (fun hmem => hx (mem_of_mem_osRemoveStep hmem))

/-- A successfully removable path is gone after its own `osRemoveStep`. -/
lemma not_mem_osRemoveStep_self {removeOk : String → Bool} {fs : List String}
    {p : String} (h : removeOk p = true) : p ∉ osRemoveStep removeOk fs p := by
  unfold osRemoveStep
  by_cases h1 : p ∈ fs
  · rw [if_pos h1, if_pos h]
    intro hmem
    simpa using List.of_mem_filter hmem
  · rw [if_neg h1]
    exact h1

/-- C7 (counterexample): when `os.remove` fails (here: on path "t.tmp"), the
bare `except Exception: pass` swallows the error, the tracked path remains on
the filesystem, and the tracking list is nevertheless emptied — refuting the
claim that every tracked path is removed from the filesystem. -/
theorem cleanup_temp_files_unremovable_counterexample :
    ("t.tmp" ∈ (cleanup_temp_files (fun _ => false) ["t.tmp"] ["t.tmp"]).1) ∧
    (cleanup_temp_files (fun _ => false) ["t.tmp"] ["t.tmp"]).2 = [] := by
  constructor
  · simp [cleanup_temp_files, osRemoveStep]
  · rfl

/-- Folding the removal step over a fully removable tracking list leaves none
of its paths on the filesystem. -/
lemma foldl_osRemoveStep_removes (removeOk : String → Bool) :
    ∀ (temp fs : List String) (p : String), p ∈ temp → removeOk p = true →
      p ∉ temp.foldl (osRemoveStep removeOk) fs := by
  intro temp
  induction temp with
  | nil => intro fs p hp _; simp at hp
  | cons a t ih =>
    intro fs p hp hro
    rw [List.foldl_cons]
    rcases List.mem_cons.mp hp with rfl | hpt
    · exact not_mem_foldl_osRemoveStep removeOk t _ p
        (not_mem_osRemoveStep_self hro)
    · exact ih _ p hpt hro

/-- C7 (amended): in every run, whatever each individual `os.remove` call
does, `_cleanup_temp_files` removes from the filesystem each tracked path
whose `os.remove` call succeeds (a failing removal is silently swallowed and
that path remains), and always leaves the tracking list empty on return. -/
theorem cleanup_temp_files_removes_all_removable (removeOk : String → Bool)
    (fs temp : List String) :
    (∀ p ∈ temp, removeOk p = true →
      p ∉ (cleanup_temp_files removeOk fs temp).1) ∧
    (cleanup_temp_files removeOk fs temp).2 = [] :=
  ⟨fun p hp hro => foldl_osRemoveStep_removes removeOk temp fs p hp hro, rfl⟩

/-- C7 (witness): a mixed-outcome run — `os.remove` succeeds on "a.tmp" and
fails on "locked.tmp" — still removes "a.tmp" and empties the tracking
list. -/
theorem cleanup_temp_files_removes_all_removable_witness :
    ("a.tmp" ∉ (cleanup_temp_files (fun p => p == "a.tmp")
        ["a.tmp", "locked.tmp"] ["a.tmp", "locked.tmp"]).1) ∧
    (cleanup_temp_files (fun p => p == "a.tmp")
        ["a.tmp", "locked.tmp"] ["a.tmp", "locked.tmp"]).2 = [] :=
  ⟨(cleanup_temp_files_removes_all_removable (fun p => p == "a.tmp")
        ["a.tmp", "locked.tmp"] ["a.tmp", "locked.tmp"]).1 "a.tmp"
      (by decide) (by decide),
   (cleanup_temp_files_removes_all_removable (fun p => p == "a.tmp")
        ["a.tmp", "locked.tmp"] ["a.tmp", "locked.tmp"]).2⟩

/-- C5: loading a path that does not exist on the filesystem returns
`success = false`, and the returned message reports that the file could not
be found. -/
theorem load_file_missing_path_fails {α : Type} (env : LoadEnv)
    (dm : DataManager α) (path : String) (h : env.pathExists = false) :
    (load_file env dm path).success = false ∧
    (load_file env dm path).message =
      "Failed to load TIFF stack: Could not find the file: " ++ path := by
  constructor <;> simp [load_file, h]

/-- C5 (witness). -/
theorem load_file_missing_path_fails_witness :
    (load_file { pathExists := false, sizeBytes := 0, decode := .error "x" }
        (DataManager.init (α := Nat)) "ghost.tif").success = false ∧
    (load_file { pathExists := false, sizeBytes := 0, decode := .error "x" }
        (DataManager.init (α := Nat)) "ghost.tif").message =
      "Failed to load TIFF stack: Could not find the file: " ++ "ghost.tif" :=
  load_file_missing_path_fails _ _ _ rfl

/-- C4: a file over the 500 MB on-disk cap is refused with the descriptive
over-size message before `tifffile.imread` is ever attempted, and a decoded
array over the 1000 MB in-memory cap is refused with the descriptive memory
message. -/
theorem load_file_size_caps {α : Type} (env : LoadEnv) (dm : DataManager α)
    (path : String) :
    (env.pathExists = true →
      (env.sizeBytes : ℚ) / (1024 * 1024) > 500 →
      (load_file env dm path).success = false ∧
      (load_file env dm path).message =
        file_too_big_msg ((env.sizeBytes : ℚ) / (1024 * 1024)) ∧
      (load_file env dm path).decodeAttempted = false) ∧
    (∀ arr0 : PyArray, env.pathExists = true →
      (env.sizeBytes : ℚ) / (1024 * 1024) ≤ 500 →
      env.decode = .ok arr0 →
      3 ≤ (promote2d arr0).ndim →
      ((promote2d arr0).nbytes : ℚ) / (1024 * 1024) > 1000 →
      (load_file env dm path).success = false ∧
      (load_file env dm path).message =
        mem_too_big_msg (((promote2d arr0).nbytes : ℚ) / (1024 * 1024))) := by
  constructor
  · intro h1 h2
    refine ⟨?_, ?_, ?_⟩ <;> simp [load_file, h1, h2]
  · intro arr0 h1 h2 hdec h3 h4
    have h2' : ¬((env.sizeBytes : ℚ) / (1024 * 1024) > 500) := not_lt.mpr h2
    have h3' : ¬((promote2d arr0).ndim < 3) := not_lt.mpr h3
    constructor <;> simp [load_file, h1, h2', hdec, h3', h4]

/-- C4 (witness): a 600 MB file on disk, and a decoded float64 stack of
2000 × 512 × 512 pixels (4000 MB in memory) from a small file. -/
theorem load_file_size_caps_witness :
    ((load_file envDisk600 (DataManager.init (α := Nat)) "big.tif").success = false ∧
      (load_file envDisk600 (DataManager.init (α := Nat)) "big.tif").message =
        file_too_big_msg ((envDisk600.sizeBytes : ℚ) / (1024 * 1024)) ∧
      (load_file envDisk600 (DataManager.init (α := Nat)) "big.tif").decodeAttempted
        = false) ∧
    ((load_file envMem4000 (DataManager.init (α := Nat)) "huge.tif").success = false ∧
      (load_file envMem4000 (DataManager.init (α := Nat)) "huge.tif").message =
        mem_too_big_msg (((promote2d arrMem4000).nbytes : ℚ) / (1024 * 1024))) :=
  ⟨(load_file_size_caps envDisk600 _ _).1 rfl
     (by norm_num [envDisk600]),
   (load_file_size_caps envMem4000 _ _).2 arrMem4000 rfl
     (by norm_num [envMem4000]) rfl
     (by norm_num [promote2d, PyArray.ndim, arrMem4000])
     (by norm_num [promote2d, PyArray.ndim, PyArray.nbytes, arrMem4000])⟩

/-- C6 (counterexample): `load_file` only rejects arrays of FEWER than 3
dimensions, so a 4-D TIFF (for instance a multi-channel hyperstack of shape
2 × 3 × 4 × 5) loads successfully and the stored stack is 4-D, not 3-D —
refuting the claim that the stored stack is a 3-D array after every
successful load. -/
theorem load_file_4d_counterexample :
    (load_file env4D (DataManager.init (α := Nat)) "hyper.tif").success = true ∧
    ((load_file env4D (DataManager.init (α := Nat)) "hyper.tif").dm.data.map
      PyArray.ndim) = some 4 := by
  have h2 : ¬((500 : ℚ) < 1000 / (1024 * 1024)) := by norm_num
  have h4 : ¬((1000 : ℚ) < 240 / (1024 * 1024)) := by norm_num
  constructor <;>
    simp [load_file, env4D, promote2d, PyArray.ndim, PyArray.nbytes, h2, h4]

/-- C6 (amended): after every successful `load_file` call whose decoded array
has only positive dimensions, the stored stack is an array of at least 3
dimensions (a 2-D decode is promoted to a one-frame 3-D stack), the frame
count is at least 1, and `total_frames` equals the leading dimension of the stack.
Uniform frame height/width is intrinsic to the ndarray representation: every
frame of a stack of shape `n :: rest` has shape `rest`. -/
theorem load_file_success_stack_invariants {α : Type} (env : LoadEnv)
    (dm : DataManager α) (path : String) (arr0 : PyArray)
    (hdec : env.decode = .ok arr0) (hpos : ∀ d ∈ arr0.shape, 0 < d)
    (hsucc : (load_file env dm path).success = true) :
    ∃ a : PyArray, (load_file env dm path).dm.data = some a ∧
      3 ≤ a.ndim ∧
      (load_file env dm path).dm.total_frames = a.shape.headI ∧
      1 ≤ (load_file env dm path).dm.total_frames := by
  by_cases h1 : env.pathExists = false
  · simp [load_file, h1] at hsucc
  · rw [Bool.not_eq_false] at h1
    by_cases h2 : (env.sizeBytes : ℚ) / (1024 * 1024) > 500
    · simp [load_file, h1, h2] at hsucc
    · by_cases h3 : (promote2d arr0).ndim < 3
      · simp [load_file, h1, h2, hdec, h3] at hsucc
      · by_cases h4 : ((promote2d arr0).nbytes : ℚ) / (1024 * 1024) > 1000
        · simp [load_file, h1, h2, hdec, h3, h4] at hsucc
        · have hdata : (load_file env dm path).dm.data =
              some { promote2d arr0 with itemsize := 4 } := by
            simp [load_file, h1, h2, hdec, h3, h4]
          have htf : (load_file env dm path).dm.total_frames =
              (promote2d arr0).shape.headI := by
            simp [load_file, h1, h2, hdec, h3, h4]
          have hhead : 1 ≤ (promote2d arr0).shape.headI := by
            have h3' : 3 ≤ (promote2d arr0).ndim := Nat.le_of_not_lt h3
            unfold promote2d at h3' ⊢
            split_ifs at h3' ⊢ with h2d
            · simp
            · cases hs : arr0.shape with
              | nil => rw [PyArray.ndim, hs] at h3'; simp at h3'
              | cons d rest =>
                simpa using hpos d (by rw [hs]; exact List.mem_cons_self d rest)
          refine ⟨{ promote2d arr0 with itemsize := 4 }, hdata, ?_, ?_, ?_⟩
          · exact Nat.le_of_not_lt h3
          · rw [htf]
          · rw [htf]
            exact hhead

/-- C6 (witness). -/
theorem load_file_success_stack_invariants_witness :
    ∃ a : PyArray,
      (load_file env3D (DataManager.init (α := Nat)) "ok.tif").dm.data = some a ∧
      3 ≤ a.ndim ∧
      (load_file env3D (DataManager.init (α := Nat)) "ok.tif").dm.total_frames
        = a.shape.headI ∧
      1 ≤ (load_file env3D (DataManager.init (α := Nat)) "ok.tif").dm.total_frames :=
  load_file_success_stack_invariants env3D _ _ arr3D rfl (by decide)
    (by
      have h2 : ¬((500 : ℚ) < 1000 / (1024 * 1024)) := by norm_num
      have h4 : ¬((1000 : ℚ) < 20480 / (1024 * 1024)) := by norm_num
      simp [load_file, env3D, arr3D, promote2d, PyArray.ndim, PyArray.nbytes, h2, h4])

/-- C9: a manual seek — `on_slider_release` or the deferred
`_update_frame_from_slider` — updates the current frame index to the slider
position but never reads or writes the `is_playing` flag, so playback state
is unchanged. -/
theorem seek_updates_frame_preserves_playing (s : VizState) (v : Nat) :
    (on_slider_release s v).is_playing = s.is_playing ∧
    (update_frame_from_slider s v).is_playing = s.is_playing ∧
    (s.has_slider = true → v < s.total_frames →
      (on_slider_release s v).current_frame = v ∧
      (update_frame_from_slider s v).current_frame = v) := by
  refine ⟨?_, ?_, ?_⟩
  · unfold on_slider_release display_frame
    split_ifs <;> rfl
  · unfold update_frame_from_slider display_frame
    split_ifs <;> rfl
  · intro hs hv
    constructor
    · unfold on_slider_release display_frame
      simp only [hs]
      split_ifs <;> first | rfl | simp_all
    · unfold update_frame_from_slider display_frame
      simp only [hs]
      split_ifs <;> first | rfl | simp_all

/-- C9 (witness): seeking to frame 2 of 5 while playing keeps `is_playing`
true and moves the current frame. -/
theorem seek_updates_frame_preserves_playing_witness :
    (on_slider_release
        { current_frame := 0, total_frames := 5, is_playing := true,
          slider_update_id := some 7, has_slider := true, has_data := true }
        2).is_playing = true ∧
    (on_slider_release
        { current_frame := 0, total_frames := 5, is_playing := true,
          slider_update_id := some 7, has_slider := true, has_data := true }
        2).current_frame = 2 :=
  ⟨(seek_updates_frame_preserves_playing _ 2).1,
   ((seek_updates_frame_preserves_playing _ 2).2.2 rfl (by decide)).1⟩

/-- Summing a frame after scaling every pixel by `c` scales the sum by `c`. -/
lemma sum_map_mul_right (c : ℚ) (f : List ℚ) :
    (f.map fun x => x * c).sum = f.sum * c := by
  induction f with
  | nil => simp
  | cons a t ih => simp [ih, add_mul]

/-- Scaling every pixel of a frame by `c` scales its mean by `c`. -/
lemma frameMean_map_mul (c : ℚ) (f : List ℚ) :
    frameMean (f.map fun x => x * c) = frameMean f * c := by
  unfold frameMean
  rw [List.length_map, sum_map_mul_right]
  ring

/-- C8: on a stack whose frames all have nonzero mean intensity, the patched
`bleach_correction` multiplies frame `i` by
`mean(frame 0) / mean(frame i)`; afterwards the mean intensity of every frame
equals the mean intensity of the first frame, and the first frame itself is
unchanged. -/
theorem bleach_correction_normalizes (stack : List (List ℚ))
    (hne : stack ≠ []) (hm : ∀ fr ∈ stack, frameMean fr ≠ 0) :
    bleach_correction stack =
      stack.map (fun fi =>
        fi.map fun x => x * (frameMean stack.headI / frameMean fi)) ∧
    (∀ fr ∈ bleach_correction stack, frameMean fr = frameMean stack.headI) ∧
    (bleach_correction stack).headI = stack.headI := by
  cases stack with
  | nil => exact absurd rfl hne
  | cons f0 rest =>
    refine ⟨rfl, ?_, ?_⟩
    · intro fr hfr
      rw [show bleach_correction (f0 :: rest) =
            (f0 :: rest).map (fun fi =>
              fi.map fun x => x * (frameMean f0 / frameMean fi)) from rfl]
        at hfr
      obtain ⟨fi, hfi, rfl⟩ := List.mem_map.mp hfr
      rw [frameMean_map_mul]
      have hi : frameMean fi ≠ 0 := hm fi hfi
      field_simp
    · have h0 : frameMean f0 ≠ 0 := hm f0 (List.mem_cons_self f0 rest)
      show (f0.map fun x => x * (frameMean f0 / frameMean f0)) = f0
      rw [div_self h0]
      simp

/-- C8 (witness): on the stack `[[1], [2]]` every corrected frame has the
mean of the first frame and the first frame is untouched. -/
theorem bleach_correction_normalizes_witness :
    (∀ fr ∈ bleach_correction stackW, frameMean fr = frameMean stackW.headI) ∧
    (bleach_correction stackW).headI = stackW.headI :=
  ⟨(bleach_correction_normalizes stackW (by simp [stackW])
      (by
        intro fr hfr
        simp only [stackW, List.mem_cons, List.not_mem_nil, or_false] at hfr
        rcases hfr with rfl | rfl <;> simp [frameMean])).2.1,
   (bleach_correction_normalizes stackW (by simp [stackW])
      (by
        intro fr hfr
        simp only [stackW, List.mem_cons, List.not_mem_nil, or_false] at hfr
        rcases hfr with rfl | rfl <;> simp [frameMean])).2.2⟩

/-- A packed row-major index is in range. -/
lemma pack_lt {H W : Nat} (i : Fin H) (j : Fin W) : i.val * W + j.val < H * W := by
  calc i.val * W + j.val < i.val * W + W := Nat.add_lt_add_left j.isLt _
    _ = (i.val + 1) * W := by ring
    _ ≤ H * W := Nat.mul_le_mul_right W i.isLt

/-- Unpacking the row of a packed row-major index. -/
lemma unpack_div {H W : Nat} (i : Fin H) (j : Fin W) :
    (i.val * W + j.val) / W = i.val := by
  have hW : 0 < W := Nat.lt_of_le_of_lt (Nat.zero_le _) j.isLt
  rw [Nat.add_comm, Nat.add_mul_div_right _ _ hW, Nat.div_eq_of_lt j.isLt,
    Nat.zero_add]

/-- Unpacking the column of a packed row-major index. -/
lemma unpack_mod {H W : Nat} (i : Fin H) (j : Fin W) :
    (i.val * W + j.val) % W = j.val := by
  rw [Nat.add_comm, Nat.add_mul_mod_self_right, Nat.mod_eq_of_lt j.isLt]

/-- Reading the flattened data at a packed index recovers the pixel. -/
lemma dataReshaped_pack (F H W : Nat) (data : Fin F → Fin H → Fin W → ℚ)
    (f : Fin F) (i : Fin H) (j : Fin W) :
    dataReshaped F H W data f (i.val * W + j.val) = data f i j := by
  have h1 := unpack_div i j
  have h2 := unpack_mod i j
  have hc : (i.val * W + j.val) / W < H ∧ (i.val * W + j.val) % W < W := by
    rw [h1, h2]
    exact ⟨i.isLt, j.isLt⟩
  unfold dataReshaped
  rw [dif_pos hc]
  have e1 : (⟨(i.val * W + j.val) / W, hc.1⟩ : Fin H) = i := Fin.ext h1
  have e2 : (⟨(i.val * W + j.val) % W, hc.2⟩ : Fin W) = j := Fin.ext h2
  rw [e1, e2]

/-- The flattened per-pixel mean at a packed index is the per-pixel temporal
mean. -/
lemma meansFlat_pack (F H W : Nat) (data : Fin F → Fin H → Fin W → ℚ)
    (i : Fin H) (j : Fin W) :
    meansFlat F H W data (i.val * W + j.val) = ccMean F H W data i j := by
  unfold meansFlat ccMean
  simp only [dataReshaped_pack]

/-- C10: on every 3-D numeric stack, the Numba loop implementation and the
vectorized NumPy fallback of `fast_cross_correlation` compute the same
function in exact arithmetic:
`result[i,j,k,l] = (1/frames) · Σ_f (data[f,i,j] − mean[i,j]) · (data[f,k,l] − mean[k,l])`. -/
theorem fast_cross_correlation_equiv (F H W : Nat)
    (data : Fin F → Fin H → Fin W → ℚ)
    (i : Fin H) (j : Fin W) (k : Fin H) (l : Fin W) :
    fast_cross_correlation_numba F H W data i j k l =
      fast_cross_correlation_fallback F H W data i j k l := by
  unfold fast_cross_correlation_fallback correlationMatrix
  simp only [dataReshaped_pack, meansFlat_pack]
  rfl

/-- A key occurring in an association list has a lookup value. -/
lemma exists_lookup_of_mem_keys {α : Type} {l : List (Nat × α)} {k : Nat}
    (h : k ∈ l.map Prod.fst) : ∃ v, List.lookup k l = some v := by
  induction l with
  | nil => simp at h
  | cons hd tl ih =>
    obtain ⟨k', v⟩ := hd
    simp only [List.map_cons, List.mem_cons] at h
    by_cases hk : k = k'
    · subst hk
      exact ⟨v, by simp [List.lookup]⟩
    · have hb : (k == k') = false := by simp [hk]
      have h' : k ∈ tl.map Prod.fst := by
        rcases h with h | h
        · exact absurd h hk
        · exact h
      obtain ⟨w, hw⟩ := ih h'
      exact ⟨w, by simp [List.lookup, hb, hw]⟩

/-- Folding `max` over a nonempty list of naturals lands in the list. -/
lemma foldr_max_mem : ∀ (l : List Nat), l ≠ [] → l.foldr max 0 ∈ l := by
  intro l
  induction l with
  | nil => intro h; exact absurd rfl h
  | cons a t ih =>
    intro _
    cases t with
    | nil => simp
    | cons b t2 =>
      have hmem := ih (by simp)
      rw [List.foldr_cons]
      rcases max_choice a ((b :: t2).foldr max 0) with h | h
      · rw [h]
        exact List.mem_cons_self a (b :: t2)
      · rw [h]
        exact List.mem_cons_of_mem a hmem

/-- Python `max(available)` over a nonempty cumulant set has a lookup
value. -/
lemma lookup_maxKey {α : Type} {l : List (Nat × α)} (h : l ≠ []) :
    ∃ v, List.lookup (maxKey l) l = some v := by
  apply exists_lookup_of_mem_keys
  unfold maxKey
  exact foldr_max_mem _ (by simpa using h)

/-- The function `load_file` never writes the `file_path` attribute. -/
lemma load_file_preserves_file_path {α : Type} (env : LoadEnv)
    (dm : DataManager α) (path : String) :
    (load_file env dm path).dm.file_path = dm.file_path := by
  unfold load_file
  cases h : env.decode <;> simp [h] <;> split_ifs <;> rfl

/-- C3 (evaluation at the failing input): `DataManager.__init__` never
assigns `self.file_path`, `load_file` never does either, and `run_sofi`
reads `self.file_path` outside its try block (line 406); so whenever
`import pysofi` succeeds, `run_sofi` raises `AttributeError` to its caller —
both on a fresh `DataManager` and after any `load_file` call — instead of
returning a `(success, message)` pair. -/
theorem run_sofi_raises_attribute_error {α : Type} (env : RunEnv α)
    (p : Params) (envL : LoadEnv) (path : String)
    (himp : env.pysofiImport = true) :
    run_sofi env (DataManager.init) p =
      .error "AttributeError: DataManager object has no attribute file_path" ∧
    run_sofi env ((load_file envL DataManager.init path).dm) p =
      .error "AttributeError: DataManager object has no attribute file_path" := by
  have h2 : (load_file envL (DataManager.init (α := α)) path).dm.file_path
      = none := by
    rw [load_file_preserves_file_path]
    rfl
  constructor
  · simp [run_sofi, himp, DataManager.init]
  · simp [run_sofi, himp, h2]

/-- C3 (witness). -/
theorem run_sofi_raises_attribute_error_witness :
    run_sofi envOrder2Only (DataManager.init) pNoDeconv5 =
      .error "AttributeError: DataManager object has no attribute file_path" :=
  (run_sofi_raises_attribute_error envOrder2Only pNoDeconv5 env3D "ok.tif" rfl).1

/-- C1 (counterexample): with deconvolution requested (`deconv = true`,
`order = 3 > 2`), a requested order absent from the cumulant set while order
2 is present does NOT fall back: `sofi.cumulants_set[order]` raises
`KeyError` and `run_sofi` returns failure — refuting the claim for every
analysis run. -/
theorem run_sofi_deconv_no_fallback_counterexample :
    List.lookup pDeconv3.order envOrder2Only.cumulantsSet = none ∧
    envOrder2Only.cumulantsSet ≠ [] ∧
    run_sofi envOrder2Only dmReady pDeconv3 =
      .ok (.failure (key_error_msg 3)) := by
  refine ⟨rfl, by simp [envOrder2Only], rfl⟩

/-- C1 (amended): in every analysis run in which deconvolution is not applied
(the `deconv` flag is off or the order is ≤ 2), if the requested order is not
a key of the computed cumulants set but at least one order is present,
`run_sofi` returns the result for the maximum available order and reports
success. -/
theorem run_sofi_order_fallback {α : Type} (env : RunEnv α)
    (dm : DataManager α) (p : Params) (path : String)
    (hfp : dm.file_path = some (some path))
    (himp : env.pysofiImport = true)
    (hload : env.loadOutcome = .ok ())
    (hfr : env.framesPresent = true)
    (hbl : effBleach env p = .ok ())
    (hdr : effDrift env p = .ok ())
    (hmo : env.momentsOutcome = .ok ())
    (hcu : effCumulants env = .ok ())
    (hnd : (p.deconv && decide (2 < p.order)) = false)
    (hmiss : List.lookup p.order env.cumulantsSet = none)
    (hne : env.cumulantsSet ≠ []) :
    ∃ img, List.lookup (maxKey env.cumulantsSet) env.cumulantsSet = some img ∧
      run_sofi env dm p =
        .ok (.success (success_msg (maxKey env.cumulantsSet)) img) := by
  obtain ⟨img, himg⟩ := lookup_maxKey hne
  refine ⟨img, himg, ?_⟩
  have hie : env.cumulantsSet.isEmpty = false := by
    cases h : env.cumulantsSet with
    | nil => exact absurd h hne
    | cons a l => rfl
  simp [run_sofi, himp, hfp, hload, hfr, hbl, hdr, hmo, hcu, hnd, hmiss, hie,
    fromCumulants, himg]

/-- C1 (witness): requesting order 5 without deconvolution when only order 2
was computed returns the order-2 result with success. -/
theorem run_sofi_order_fallback_witness :
    ∃ img,
      List.lookup (maxKey envOrder2Only.cumulantsSet) envOrder2Only.cumulantsSet
        = some img ∧
      run_sofi envOrder2Only dmReady pNoDeconv5 =
        .ok (.success (success_msg (maxKey envOrder2Only.cumulantsSet)) img) :=
  run_sofi_order_fallback envOrder2Only dmReady pNoDeconv5 "movie.tif"
    rfl rfl rfl rfl rfl rfl rfl rfl rfl rfl (by simp [envOrder2Only])

/-- C2 (counterexample): a deconvolution failure does not abort the pipeline:
`run_sofi` catches it and falls back to the plain cumulant result, returning
success — refuting the claim that the failure of every step aborts with a failure
result and that there is no partial-result recovery. -/
theorem run_sofi_deconv_failure_recovers_counterexample :
    envDeconvFail.deconvOutcome = .error "fft failed" ∧
    run_sofi envDeconvFail dmReady pDeconv3 =
      .ok (.success (success_msg 3) 9) := by
  exact ⟨rfl, rfl⟩

/-- C2 (amended): a failure of the load, bleach-correction, drift-correction,
moment-computation, cumulant-computation or result-extraction step aborts the
pipeline and yields a failure result carrying the human-readable message
built for that step (an empty cumulant set raises
`ValueError("No results available")`, a missing key raises `KeyError`, both
caught by the outer handler); deconvolution is the sole exception — its
failure falls back to the plain cumulant result instead of aborting, and
aborts only when that extraction also fails. -/
theorem run_sofi_step_failures_abort {α : Type} (env : RunEnv α)
    (dm : DataManager α) (p : Params) (path : String)
    (hfp : dm.file_path = some (some path))
    (himp : env.pysofiImport = true) :
    (∀ e, env.loadOutcome = .error e →
      run_sofi env dm p =
        .ok (.failure ("Failed to load data into PySOFI: " ++ e))) ∧
    (env.loadOutcome = .ok () → env.framesPresent = false →
      run_sofi env dm p =
        .ok (.failure "Failed to load frames data into PySOFI")) ∧
    (∀ e, env.loadOutcome = .ok () → env.framesPresent = true →
      effBleach env p = .error e →
      run_sofi env dm p =
        .ok (.failure ("Bleaching correction failed: " ++ e))) ∧
    (∀ e, env.loadOutcome = .ok () → env.framesPresent = true →
      effBleach env p = .ok () → effDrift env p = .error e →
      run_sofi env dm p =
        .ok (.failure ("Drift correction failed: " ++ e))) ∧
    (∀ e, env.loadOutcome = .ok () → env.framesPresent = true →
      effBleach env p = .ok () → effDrift env p = .ok () →
      env.momentsOutcome = .error e →
      run_sofi env dm p =
        .ok (.failure ("SOFI calculation failed: " ++ e))) ∧
    (∀ e, env.loadOutcome = .ok () → env.framesPresent = true →
      effBleach env p = .ok () → effDrift env p = .ok () →
      env.momentsOutcome = .ok () → effCumulants env = .error e →
      run_sofi env dm p =
        .ok (.failure ("SOFI calculation failed: " ++ e))) ∧
    (env.loadOutcome = .ok () → env.framesPresent = true →
      effBleach env p = .ok () → effDrift env p = .ok () →
      env.momentsOutcome = .ok () → effCumulants env = .ok () →
      (p.deconv && decide (2 < p.order)) = false →
      List.lookup p.order env.cumulantsSet = none →
      env.cumulantsSet.isEmpty = true →
      run_sofi env dm p =
        .ok (.failure "SOFI calculation failed: No results available")) ∧
    (env.loadOutcome = .ok () → env.framesPresent = true →
      effBleach env p = .ok () → effDrift env p = .ok () →
      env.momentsOutcome = .ok () → effCumulants env = .ok () →
      (p.deconv && decide (2 < p.order)) = true →
      env.deconvOutcome = .ok () →
      env.fourierResult.bind (List.lookup p.order) = none →
      List.lookup p.order env.cumulantsSet = none →
      run_sofi env dm p = .ok (.failure (key_error_msg p.order))) ∧
    (∀ e, env.loadOutcome = .ok () → env.framesPresent = true →
      effBleach env p = .ok () → effDrift env p = .ok () →
      env.momentsOutcome = .ok () → effCumulants env = .ok () →
      (p.deconv && decide (2 < p.order)) = true →
      env.deconvOutcome = .error e →
      List.lookup p.order env.cumulantsSet = none →
      run_sofi env dm p = .ok (.failure (key_error_msg p.order))) := by
  refine ⟨?_, ?_, ?_, ?_, ?_, ?_, ?_, ?_, ?_⟩ <;>
    · intros
      simp [run_sofi, fromCumulants, hfp, himp, *]

/-- C2 (witness): a raising PySOFI load aborts with the load-failure
message. -/
theorem run_sofi_step_failures_abort_witness :
    run_sofi envLoadFail dmReady pNoDeconv5 =
      .ok (.failure ("Failed to load data into PySOFI: " ++ "corrupt tiff")) :=
  (run_sofi_step_failures_abort envLoadFail dmReady pNoDeconv5 "movie.tif"
      rfl rfl).1 "corrupt tiff" rfl

end GuiPySofi
